import Mathlib

/-!
Verification development for the SecScore service (nicokempe/secscore).

The TypeScript sources are shallowly embedded: JavaScript `number`
arithmetic is modelled over `ℚ` (and over `ℝ` where the code calls
`Math.exp`), nullable values become `Option`, thrown errors become
`Except`/`Option`, and the process-wide mutable state of the KEV index
and the LRU cache is modelled by explicit state passing.

Where the current revision of a function is absent from the snapshot and
only its unit tests and callers remain, the definition is modelled from
the specification and its doc comment says so.

The file is organised as definitions first, then the lemmas and the
claim theorems.
-/

/-! ## Definitions: shared helpers -/

/-- `clamp` from `server/lib/secscore-engine.ts`:
`Math.min(Math.max(value, min), max)`, generic over the ordered carrier
so that it serves both the rational and the real embedding. -/
def clamp {A : Type} [LinearOrder A] (value lo hi : A) : A :=
  min (max value lo) hi

/-- JavaScript `Math.round` on the rationals: `⌊q + 1/2⌋` (round half
towards positive infinity, which is `Math.round`'s rule). The engine
only applies it to non-negative clamped values. -/
def jsRound (q : ℚ) : ℤ :=
  ⌊q + 1 / 2⌋

/-- Round half away from zero to one decimal, as the spec's `round₁`. -/
def round1 (q : ℚ) : ℚ :=
  if q < 0 then -(((⌊-q * 10 + 1 / 2⌋ : ℤ) : ℚ) / 10)
  else ((⌊q * 10 + 1 / 2⌋ : ℤ) : ℚ) / 10

/-- `E_MIN_V31` from `server/lib/constants.ts` (CVSS v3.1 Exploit Code
Maturity minimum factor, "Unproven"). -/
def E_MIN_V31 : ℚ := 91 / 100

/-- `E_MAX_V31` from `server/lib/constants.ts`. -/
def E_MAX_V31 : ℚ := 1

/-- `EXPLOITPROB_WEIGHT` from `server/lib/constants.ts`. -/
def EXPLOITPROB_WEIGHT : ℚ := 35 / 100

/-- `POC_BONUS_MAX` from `server/lib/constants.ts`. -/
def POC_BONUS_MAX : ℚ := 1

/-- `EPSS_BLEND_WEIGHT` from `server/lib/constants.ts`. -/
def EPSS_BLEND_WEIGHT : ℚ := 5 / 2

/-- `KEV_MIN_FLOOR` from `server/lib/constants.ts`. -/
def KEV_MIN_FLOOR : ℚ := 8

/-- `EpssSignal` from the service types. -/
structure EpssSignal where
  score : ℚ
  percentile : ℚ
  fetchedAt : String
deriving DecidableEq, Repr

/-- `ExploitEvidence` from the service types (`source` is always the
literal "exploitdb" and is omitted from the embedding). -/
structure ExploitEvidence where
  url : Option String
  publishedDate : Option String
deriving DecidableEq, Repr

/-- Lowercasing of a string, character by character (JavaScript
`toLowerCase` on the ASCII range used by CPE strings). -/
def lowerStr (s : String) : String :=
  String.mk (s.data.map Char.toLower)

/-- Char-list test: does the list start with the given pattern? -/
def charsStartWith : List Char → List Char → Bool
  | [], _ => true
  | _ :: _, [] => false
  | a :: as, b :: bs => a = b && charsStartWith as bs

/-- Char-list substring test (JavaScript `String.prototype.includes`). -/
def charsContain (needle : List Char) : List Char → Bool
  | [] => needle.isEmpty
  | c :: rest => charsStartWith needle (c :: rest) || charsContain needle rest

/-- Does any of the (already lowercased) CPE strings contain any of the
given patterns? Helper for the category-inference rules. -/
def cpeHasAny (cpeList : List String) (pats : List String) : Bool :=
  cpeList.any (fun cpe => pats.any (fun p => charsContain p.data (lowerStr cpe).data))

/-- Left-pad a digit string with zeros up to the requested width. -/
def padZeros (s : String) (n : Nat) : String :=
  if n ≤ s.length then s
  else String.mk (List.replicate (n - s.length) '0') ++ s

/-- JavaScript `Number.prototype.toFixed` on the rationals: render with
`nd` decimal digits, rounding half away from zero. Only used inside the
explanation detail strings, which no theorem inspects. -/
def toFixed (nd : Nat) (q : ℚ) : String :=
  let m : ℤ := if q < 0 then -⌊-q * ((10 : ℚ) ^ nd) + 1 / 2⌋ else ⌊q * ((10 : ℚ) ^ nd) + 1 / 2⌋
  let a : ℕ := m.natAbs
  let ip : ℕ := a / 10 ^ nd
  let fp : ℕ := a % 10 ^ nd
  let sign : String := if m < 0 then "-" else ""
  if nd = 0 then sign ++ toString ip
  else sign ++ toString ip ++ "." ++ padZeros (toString fp) nd

/-- The time separator of ISO-8601 timestamps. -/
def tSep : String := "T"

/-- The date part of an ISO-8601 timestamp: `publishedDate.split('T')[0]`. -/
def dateOnly (s : String) : String :=
  (s.splitOn tSep).headD s

/-! ## Definitions: the engine present under `server/lib` -/

namespace SrcEngine

/-- `BASE_DEFAULT` from `server/lib/secscore-engine.ts`. -/
def BASE_DEFAULT : ℚ := 0

/-- Argument record of `computeSecScore` in
`server/lib/secscore-engine.ts` (lines 58-64). -/
structure Args where
  cvssBase : Option ℚ
  exploitProb : ℚ
  kev : Bool
  hasExploit : Bool
  epss : Option EpssSignal
deriving DecidableEq

/-- The local `score` of `computeSecScore` in
`server/lib/secscore-engine.ts` lines 65-70, before the KEV floor:
CVSS base blended with the exploit-probability temporal factor, plus
the PoC and EPSS bonuses. -/
def score (args : Args) : ℚ :=
  let baseScore := args.cvssBase.getD BASE_DEFAULT
  let temporalFactor := E_MIN_V31 + (E_MAX_V31 - E_MIN_V31) * args.exploitProb
  let blendedTemporal := baseScore * ((1 - EXPLOITPROB_WEIGHT) + temporalFactor * EXPLOITPROB_WEIGHT)
  let pocBonus := if args.hasExploit then POC_BONUS_MAX else 0
  let epssBonus := match args.epss with
    | some e => e.score * EPSS_BLEND_WEIGHT
    | none => 0
  blendedTemporal + pocBonus + epssBonus

/-- `computeSecScore` from `server/lib/secscore-engine.ts` lines 58-77:
applies the KEV floor to `score`, clamps to [0,10] and rounds to one
decimal via `Math.round(x * 10) / 10`. -/
def computeSecScore (args : Args) : ℚ :=
  let floored := if args.kev = true ∧ score args < KEV_MIN_FLOOR then KEV_MIN_FLOOR else score args
  ((jsRound (clamp floored 0 10 * 10) : ℤ) : ℚ) / 10

end SrcEngine

/-- `asymmetricLaplaceCdf` from `server/lib/secscore-engine.ts` lines
41-53, over `ℝ`. Every real number is finite, so the source's
non-finite guard (which returns 0) is vacuous in this embedding; the
claims about this function are restricted to finite inputs anyway. -/
noncomputable def asymmetricLaplaceCdf (tWeeks mu lambda kappa : ℝ) : ℝ :=
  if tWeeks ≤ mu then
    clamp ((kappa ^ 2 / (1 + kappa ^ 2)) * Real.exp ((lambda / kappa) * (tWeeks - mu))) 0 1
  else
    clamp (1 - (1 / (1 + kappa ^ 2)) * Real.exp (-lambda * kappa * (tWeeks - mu))) 0 1

/-- `CvssTemporalMultipliers` from the service types: remediation level
and report confidence, each nullable. -/
structure CvssTemporalMultipliers where
  remediationLevel : Option ℚ
  reportConfidence : Option ℚ
deriving DecidableEq, Repr

/-! ## Definitions: NVD metric selection (`server/lib/fetchers.ts`) -/

/-- `NvdCvssData` from the fetcher types: the inner CVSS data record of
an NVD metric (also used for the v2 `baseMetrics` shape). -/
structure NvdCvssData where
  baseScore : Option ℚ
  score : Option ℚ
  vectorString : Option String
  version : Option String

/-- `NvdCvssMetric` from the fetcher types. -/
structure NvdCvssMetric where
  cvssData : Option NvdCvssData
  baseMetrics : Option NvdCvssData
  remediationLevel : Option String
  reportConfidence : Option String

/-- The `metrics` object of an NVD vulnerability: one optional metric
array per CVSS family. -/
structure NvdMetrics where
  cvssMetricV31 : Option (List NvdCvssMetric)
  cvssMetricV30 : Option (List NvdCvssMetric)
  cvssMetricV3 : Option (List NvdCvssMetric)
  cvssMetricV40 : Option (List NvdCvssMetric)
  cvssMetricV2 : Option (List NvdCvssMetric)

/-- `NvdCve` restricted to the field `selectCvssMetric` reads. -/
structure NvdCve where
  metrics : Option NvdMetrics

/-- Uppercasing of a string, character by character. -/
def upperStr (s : String) : String :=
  String.mk (s.data.map Char.toUpper)

/-- `CVSS_V3_RL_CODES` from `server/lib/fetchers.ts`. -/
def rlCodeLookup (s : String) : Option ℚ :=
  if s = "X" then some 1
  else if s = "U" then some 1
  else if s = "W" then some (97 / 100)
  else if s = "T" then some (24 / 25)
  else if s = "O" then some (19 / 20)
  else none

/-- `CVSS_V3_RL_TEXT` from `server/lib/fetchers.ts`. -/
def rlTextLookup (s : String) : Option ℚ :=
  if s = "NOT_DEFINED" then some 1
  else if s = "UNAVAILABLE" then some 1
  else if s = "WORKAROUND" then some (97 / 100)
  else if s = "TEMPORARY" then some (24 / 25)
  else if s = "OFFICIAL" then some (19 / 20)
  else none

/-- `CVSS_V3_RC_CODES` from `server/lib/fetchers.ts`. -/
def rcCodeLookup (s : String) : Option ℚ :=
  if s = "X" then some 1
  else if s = "C" then some 1
  else if s = "R" then some (24 / 25)
  else if s = "U" then some (23 / 25)
  else none

/-- `CVSS_V3_RC_TEXT` from `server/lib/fetchers.ts`. -/
def rcTextLookup (s : String) : Option ℚ :=
  if s = "NOT_DEFINED" then some 1
  else if s = "CONFIRMED" then some 1
  else if s = "REASONABLE" then some (24 / 25)
  else if s = "UNKNOWN" then some (23 / 25)
  else none

/-- `remediationMultiplierFromValue` from `server/lib/fetchers.ts`:
absent or empty values (falsy in JavaScript) map to null; otherwise the
uppercased value is looked up in the code table and then the text
table. -/
def remediationMultiplierFromValue (v : Option String) : Option ℚ :=
  match v with
  | none => none
  | some s =>
    if s.length = 0 then none
    else rlCodeLookup (upperStr s) <|> rlTextLookup (upperStr s)

/-- `reportConfidenceMultiplierFromValue` from `server/lib/fetchers.ts`. -/
def reportConfidenceMultiplierFromValue (v : Option String) : Option ℚ :=
  match v with
  | none => none
  | some s =>
    if s.length = 0 then none
    else rcCodeLookup (upperStr s) <|> rcTextLookup (upperStr s)

/-- The path separator of CVSS vector strings. -/
def slashSep : String := "/"

/-- The key/value separator of CVSS vector segments. -/
def colonSep : String := ":"

/-- The CVSS vector header. -/
def cvssHdr : String := "CVSS:"

/-- Association lookup with JavaScript-object overwrite semantics: the
last binding of a key wins. -/
def lookupLast (pairs : List (String × String)) (k : String) : Option String :=
  pairs.foldl (fun acc p => if p.1 = k then some p.2 else acc) none

/-- `parseCvssVector` from `server/lib/fetchers.ts`: split on `/`; the
first segment yields the version (the part after `CVSS:`); the
remaining segments are `key:value` pairs, kept only when both parts are
non-empty. Returns the version and the metric bindings in order. -/
def parseCvssVector (vector : Option String) : Option String × List (String × String) :=
  match vector with
  | none => (none, [])
  | some v =>
    match v.splitOn slashSep with
    | [] => (none, [])
    | headSeg :: rest =>
      let version := if charsStartWith cvssHdr.data headSeg.data = true
        then (headSeg.splitOn colonSep).get? 1
        else none
      let metrics := rest.foldl (fun acc part =>
        match part.splitOn colonSep with
        | k :: val :: _ =>
          if k.length ≠ 0 ∧ val.length ≠ 0 then acc ++ [(k, val)] else acc
        | _ => acc) []
      (version, metrics)

/-- The vector key for the remediation level. -/
def rlKey : String := "RL"

/-- The alternative vector key for the remediation level. -/
def rKey : String := "R"

/-- The vector key for the report confidence. -/
def rcKey : String := "RC"

/-- `deriveTemporalMultipliers` from `server/lib/fetchers.ts`: prefer
the metric's own fields, falling back to the vector's `RL` (or `R`) and
`RC` components. -/
def deriveTemporalMultipliers (metric : Option NvdCvssMetric) (vector : Option String) :
    CvssTemporalMultipliers :=
  let metrics := (parseCvssVector vector).2
  let remediation := remediationMultiplierFromValue (metric.bind NvdCvssMetric.remediationLevel)
    <|> remediationMultiplierFromValue (lookupLast metrics rlKey <|> lookupLast metrics rKey)
  let reportConfidence :=
    reportConfidenceMultiplierFromValue (metric.bind NvdCvssMetric.reportConfidence)
    <|> reportConfidenceMultiplierFromValue (lookupLast metrics rcKey)
  { remediationLevel := remediation, reportConfidence := reportConfidence }

/-- `extractCvssVersion` from `server/lib/fetchers.ts`: the optional
`version` field of the CVSS data record. -/
def extractCvssVersion (d : Option NvdCvssData) : Option String :=
  d.bind NvdCvssData.version

/-- Result record of `selectCvssMetric`. -/
structure SelectedCvssMetric where
  metric : Option NvdCvssMetric
  vector : Option String
  baseScore : Option ℚ
  version : Option String
  multipliers : CvssTemporalMultipliers

/-- `selectCvssMetric` from `server/lib/fetchers.ts` lines 226-254:
pick the first metric of the first present family, in the order v4.0,
v3.1, v3.0, v3, v2; take its `cvssData` (or `baseMetrics`), read
`baseScore` (or `score`) and `vectorString`, derive the temporal
multipliers and the version. -/
def selectCvssMetric (cve : NvdCve) : SelectedCvssMetric :=
  let metric := (cve.metrics.bind NvdMetrics.cvssMetricV40).bind List.head?
    <|> (cve.metrics.bind NvdMetrics.cvssMetricV31).bind List.head?
    <|> (cve.metrics.bind NvdMetrics.cvssMetricV30).bind List.head?
    <|> (cve.metrics.bind NvdMetrics.cvssMetricV3).bind List.head?
    <|> (cve.metrics.bind NvdMetrics.cvssMetricV2).bind List.head?
  let cvssData := metric.bind NvdCvssMetric.cvssData <|> metric.bind NvdCvssMetric.baseMetrics
  let vectorString := cvssData.bind NvdCvssData.vectorString
  let parsed := parseCvssVector vectorString
  let baseScore := cvssData.bind NvdCvssData.baseScore <|> cvssData.bind NvdCvssData.score
  let multipliers := deriveTemporalMultipliers metric vectorString
  { metric := metric,
    vector := vectorString,
    baseScore := baseScore,
    version := extractCvssVersion cvssData <|> parsed.1,
    multipliers := multipliers }

/-- From the spec's words, for the refinement claim about metric
selection: the metric families in the priority order v4.0, v3.1, v3.0,
v3, v2. -/
def familiesInPriorityOrder (cve : NvdCve) : List (Option (List NvdCvssMetric)) :=
  [cve.metrics.bind NvdMetrics.cvssMetricV40,
   cve.metrics.bind NvdMetrics.cvssMetricV31,
   cve.metrics.bind NvdMetrics.cvssMetricV30,
   cve.metrics.bind NvdMetrics.cvssMetricV3,
   cve.metrics.bind NvdMetrics.cvssMetricV2]

/-- From the spec's words: a family is taken when it is present, i.e.
it exists and offers a first metric. -/
def familyFirstMetric (fam : Option (List NvdCvssMetric)) : Option NvdCvssMetric :=
  fam.bind List.head?

/-- From the spec's words: the selected metric is the first metric of
the first present family in priority order. -/
def specSelectedMetric (cve : NvdCve) : Option NvdCvssMetric :=
  ((familiesInPriorityOrder cve).find?
    (fun fam => (familyFirstMetric fam).isSome)).bind familyFirstMetric

/-- From the spec's words: the data record of the selected metric. -/
def specSelectedData (cve : NvdCve) : Option NvdCvssData :=
  (specSelectedMetric cve).bind NvdCvssMetric.cvssData
    <|> (specSelectedMetric cve).bind NvdCvssMetric.baseMetrics

/-! ## Definitions: the engine modelled from the spec -/

/-- Asymmetric-Laplace model parameters `{mu, lambda, kappa}`. -/
structure ModelParams where
  mu : ℚ
  lambda : ℚ
  kappa : ℚ
deriving DecidableEq, Repr

/-- One explanation bullet: `{title, detail, source}`. -/
structure ExplanationEntry where
  title : String
  detail : String
  source : String
deriving DecidableEq, Repr

namespace SpecEngine

/-!
The current revision of `server/lib/secscore-engine.ts` is absent from
the snapshot; only its unit tests and its caller
(`server/api/v1/enrich/cve/[cveId].get.ts`) remain. The definitions in
this namespace are therefore modelled from the specification
(section 4.1), and the unit tests of the repository are used as
concrete sanity checks.
-/

def phpPats : List String := ["php"]

def webappsPats : List String := ["wordpress", "joomla"]

def windowsPats : List String := ["microsoft", "windows"]

def linuxPats : List String := ["linux", "kernel"]

def androidPats : List String := ["android", "google:android"]

def iosPats : List String := ["apple:iphone_os", "ios"]

def macosPats : List String := ["apple:mac_os_x", "macos"]

def javaPats : List String := ["oracle:java", ":java", "openjdk", "jdk"]

def dosPats : List String := ["denial_of_service", ":dos", "/dos"]

def aspPats : List String := ["asp.net", "aspnet"]

def hardwarePats : List String := [":h:", "firmware", "hardware"]

def remotePats : List String := ["remote"]

def localPats : List String := ["local"]

/-- Modelled from the spec: `inferCategory` (spec section 4.1,
"Category inference"), whose current source is missing from the
snapshot (its unit tests expect this 14-rule form). First match wins;
the numbered rules are evaluated in priority order, each rule testing
every lowercased CPE string before the next rule is tried. -/
def inferCategory (cpeList : List String) : String :=
  if cpeHasAny cpeList phpPats = true then "php"
  else if cpeHasAny cpeList webappsPats = true then "webapps"
  else if cpeHasAny cpeList windowsPats = true then "windows"
  else if cpeHasAny cpeList linuxPats = true then "linux"
  else if cpeHasAny cpeList androidPats = true then "android"
  else if cpeHasAny cpeList iosPats = true then "ios"
  else if cpeHasAny cpeList macosPats = true then "macos"
  else if cpeHasAny cpeList javaPats = true then "java"
  else if cpeHasAny cpeList dosPats = true then "dos"
  else if cpeHasAny cpeList aspPats = true then "asp"
  else if cpeHasAny cpeList hardwarePats = true then "hardware"
  else if cpeHasAny cpeList remotePats = true then "remote"
  else if cpeHasAny cpeList localPats = true then "local"
  else "default"

/-- Modelled from the spec: assumed CVSS v4 maturity value for
"Unproven" (spec sections 4.1 step 4 and 8: `0.9`). -/
def CVSS_V4_MATURITY_U : ℚ := 9 / 10

/-- Modelled from the spec: assumed CVSS v4 maturity value for
"Attacked" (spec sections 4.1 step 4 and 8: `1.0`). -/
def CVSS_V4_MATURITY_A : ℚ := 1

/-- Does the optional CVSS version string start with "4"? -/
def versionStarts4 (v : Option String) : Bool :=
  match v with
  | some s =>
    match s.data with
    | c :: _ => c = '4'
    | [] => false
  | none => false

/-- Inputs of the current `computeSecScore`, as passed by
`server/api/v1/enrich/cve/[cveId].get.ts` and the unit tests. -/
structure ScoreInputs where
  cvssBase : Option ℚ
  cvssVector : Option String
  cvssVersion : Option String
  exploitProb : ℚ
  kev : Bool
  hasExploit : Bool
  epss : Option EpssSignal
  temporalMultipliers : CvssTemporalMultipliers := ⟨none, none⟩
deriving DecidableEq

/-- Result record of the current `computeSecScore`
(spec section 4.1: `{secscore, temporalKernel, exploitMaturity, eMin}`). -/
structure ScoreBreakdown where
  secscore : ℚ
  temporalKernel : ℚ
  exploitMaturity : ℚ
  eMin : ℚ
deriving DecidableEq, Repr

/-- Modelled from the spec: steps 1-2 of the SecScore composition, the
temporal kernel `K = round₁(baseScore·RL·RC)` with a missing base
defaulted to 0 and absent multipliers defaulted to 1. -/
def temporalKernelOf (args : ScoreInputs) : ℚ :=
  round1 (args.cvssBase.getD 0 * args.temporalMultipliers.remediationLevel.getD 1 *
    args.temporalMultipliers.reportConfidence.getD 1)

/-- Modelled from the spec: step 4 of the SecScore composition, `eMin`. -/
def eMinOf (args : ScoreInputs) : ℚ :=
  if versionStarts4 args.cvssVersion = true
  then clamp (CVSS_V4_MATURITY_U / CVSS_V4_MATURITY_A) 0 1
  else E_MIN_V31

/-- Modelled from the spec: step 5, `E_S = eMin + (eMax − eMin)·p` with
`eMax = 1`. -/
def exploitMaturityOf (args : ScoreInputs) : ℚ :=
  eMinOf args + (1 - eMinOf args) * args.exploitProb

/-- Modelled from the spec: steps 6-8, `K·E_S` plus the EPSS and PoC
bonuses. -/
def blendedOf (args : ScoreInputs) : ℚ :=
  temporalKernelOf args * exploitMaturityOf args
    + (match args.epss with
      | some e => EPSS_BLEND_WEIGHT * e.score
      | none => 0)
    + (if args.hasExploit then POC_BONUS_MAX else 0)

/-- Modelled from the spec: the current `computeSecScore`
(spec section 4.1, "SecScore composition", steps 1-10), whose source is
missing from the snapshot (only its unit tests and its caller remain).
Steps 9-10: the KEV floor is applied to the blended score and the
result is clamped to [0,10] and rounded to one decimal. -/
def computeSecScore (args : ScoreInputs) : ScoreBreakdown :=
  let floored := if args.kev = true ∧ blendedOf args < KEV_MIN_FLOOR
    then KEV_MIN_FLOOR else blendedOf args
  { secscore := round1 (clamp floored 0 10),
    temporalKernel := temporalKernelOf args,
    exploitMaturity := exploitMaturityOf args,
    eMin := eMinOf args }

/-- Parameters of the current `buildExplanation`, as passed by
`server/api/v1/enrich/cve/[cveId].get.ts` and the unit tests. -/
structure ExplanationParams where
  kev : Bool
  exploits : List ExploitEvidence
  epss : Option EpssSignal
  exploitProb : ℚ
  modelCategory : String
  modelParams : ModelParams
  tWeeks : ℚ
  cvssBase : Option ℚ
  secscore : ℚ
  temporalKernel : ℚ
  temporalExploitMaturity : ℚ

/-- Modelled from the spec: the always-present temporal-model entry
(spec section 4.1, "Explanation emission", item 1). -/
def temporalEntry (p : ExplanationParams) : ExplanationEntry :=
  { title := "Temporal model",
    detail := "category=" ++ p.modelCategory
      ++ ", mu=" ++ toFixed 2 p.modelParams.mu
      ++ ", lambda=" ++ toFixed 2 p.modelParams.lambda
      ++ ", kappa=" ++ toFixed 2 p.modelParams.kappa
      ++ ", tWeeks=" ++ toFixed 2 p.tWeeks
      ++ ", exploitProb=" ++ toFixed 3 p.exploitProb
      ++ ", E_S(t)=" ++ toFixed 3 p.temporalExploitMaturity
      ++ ", K=" ++ toFixed 1 p.temporalKernel,
    source := "secscore" }

/-- Modelled from the spec: the KEV entry (item 2). -/
def kevEntry : ExplanationEntry :=
  { title := "CISA KEV",
    detail := "Applied KEV floor to ≥ " ++ toFixed 1 KEV_MIN_FLOOR ++ " after temporal kernel",
    source := "cisa-kev" }

/-- Modelled from the spec: the exploit-evidence entry with the first
evidence's date when present (item 3). -/
def exploitEntry (ex : ExploitEvidence) : ExplanationEntry :=
  { title := "Exploit PoC",
    detail := "Added +" ++ toFixed 1 POC_BONUS_MAX ++ " after temporal kernel from ExploitDB"
      ++ (match ex.publishedDate with
        | some d => " (published " ++ dateOnly d ++ ")"
        | none => ""),
    source := "exploitdb" }

/-- Modelled from the spec: the EPSS entry with the additive bonus, the
raw score and the percentile (item 4). -/
def epssEntry (e : EpssSignal) : ExplanationEntry :=
  { title := "EPSS",
    detail := "Added +" ++ toFixed 2 (EPSS_BLEND_WEIGHT * e.score)
      ++ " (EPSS=" ++ toFixed 3 e.score
      ++ ", p" ++ toString (jsRound (e.percentile * 100))
      ++ ") after temporal kernel",
    source := "epss" }

/-- Modelled from the spec: the CVSS entry - base score when present,
fallback message otherwise (item 5). -/
def cvssEntry (b : Option ℚ) : ExplanationEntry :=
  match b with
  | some v =>
    { title := "CVSS Base",
      detail := "CVSS base score " ++ toFixed 1 v ++ " used for kernel",
      source := "cvss" }
  | none =>
    { title := "CVSS Missing",
      detail := "CVSS base score unavailable; kernel defaults to 0",
      source := "cvss" }

/-- Modelled from the spec: the final SecScore entry (item 6). -/
def secscoreEntry (s : ℚ) : ExplanationEntry :=
  { title := "SecScore",
    detail := "Final SecScore " ++ toFixed 1 s,
    source := "secscore" }

/-- Modelled from the spec: the current `buildExplanation`
(spec section 4.1, "Explanation emission"), whose source is missing
from the snapshot. The ordered entries: temporal model always first;
then KEV, exploit PoC and EPSS when they apply; then exactly one CVSS
entry; SecScore always last. -/
def buildExplanation (p : ExplanationParams) : List ExplanationEntry :=
  [temporalEntry p]
    ++ (if p.kev then [kevEntry] else [])
    ++ (match p.exploits.head? with
      | some ex => [exploitEntry ex]
      | none => [])
    ++ (match p.epss with
      | some e => [epssEntry e]
      | none => [])
    ++ [cvssEntry p.cvssBase]
    ++ [secscoreEntry p.secscore]

end SpecEngine

/-! ## Definitions: LRU cache (`server/lib/lru-cache.ts`) -/

/-- `CacheEntry` from the cache types: `{value, expiresAt}` with
`expiresAt` in epoch milliseconds. -/
structure CacheEntry (V : Type) where
  value : V
  expiresAt : ℤ
deriving DecidableEq

/-- The in-process `Map` of the cache, modelled as an association list
in insertion order (JavaScript `Map` preserves insertion order) with
unique keys. -/
abbrev CacheStore (V : Type) := List (String × CacheEntry V)

/-- `Map.prototype.get`: the entry of the first (only) binding of the
key. -/
def mapGet {V : Type} (m : CacheStore V) (k : String) : Option (CacheEntry V) :=
  (m.find? (fun p => p.1 == k)).map Prod.snd

/-- `Map.prototype.delete`: remove the binding of the key. -/
def mapDelete {V : Type} (m : CacheStore V) (k : String) : CacheStore V :=
  m.filter (fun p => !(p.1 == k))

/-- `Map.prototype.set`: update an existing binding in place, else
append a new binding at the most-recent end. -/
def mapSet {V : Type} (m : CacheStore V) (k : String) (e : CacheEntry V) : CacheStore V :=
  if (m.find? (fun p => p.1 == k)).isSome
  then m.map (fun p => if p.1 == k then (k, e) else p)
  else m ++ [(k, e)]

/-- `lruGet` from `server/lib/lru-cache.ts` lines 9-23: a missing key
is a miss; an entry with `expiresAt ≤ now` is deleted and reported as a
miss; otherwise the entry is deleted and re-inserted (moving it to the
most-recently-used position) and its value returned. `Date.now()` is
the injected `now`. -/
def lruGet {V : Type} (now : ℤ) (m : CacheStore V) (k : String) : Option V × CacheStore V :=
  match mapGet m k with
  | none => (none, m)
  | some e =>
    if e.expiresAt ≤ now then (none, mapDelete m k)
    else (some e.value, mapSet (mapDelete m k) k e)

/-! ## Definitions: KEV index and refresh
(`server/lib/kev-index.ts` and `server/plugins/kev-loader.ts`) -/

/-- `KevMetaValue` from the KEV types. -/
structure KevMetaValue where
  dateAdded : Option String
  vendorProject : Option String
  product : Option String
deriving DecidableEq, Repr

/-- `KevCompactEntry` from the KEV types. -/
structure KevCompactEntry where
  cveId : String
  dateAdded : Option String := none
  vendorProject : Option String := none
  product : Option String := none
deriving DecidableEq, Repr

/-- `KevCompactFile` from the KEV types. -/
structure KevCompactFile where
  etag : Option String := none
  lastModified : Option String := none
  updatedAt : String
  items : List KevCompactEntry
deriving DecidableEq, Repr

/-- The process-wide mutable state of `server/lib/kev-index.ts`
(`kevSet`, `kevMeta`, `currentEtag`, `currentLastModified`,
`currentUpdatedAt`), made explicit. -/
structure KevRuntime where
  set : List String
  meta : List (String × KevMetaValue)
  etag : Option String
  lastModified : Option String
  updatedAt : Option String
deriving DecidableEq, Repr

/-- `toStringOrUndefined` from `server/lib/kev-index.ts`: non-strings
(modelled as `none`) and blank strings map to `none`; other strings are
trimmed. -/
def toStringOrUndefined (v : Option String) : Option String :=
  v.bind (fun s => if s.trim.length = 0 then none else some s.trim)

/-- A candidate KEV item as found in upstream JSON: each field is
`none` when absent or not a string. -/
structure KevRawEntry where
  cveId : Option String := none
  cveID : Option String := none
  dateAdded : Option String := none
  vendorProject : Option String := none
  product : Option String := none
deriving DecidableEq, Repr

/-- `normalizeCompactEntry` from `server/lib/kev-index.ts`: `none`
stands for a non-record candidate; an entry requires a usable
`cveId` (or `cveID`); the optional fields are trimmed-or-absent. -/
def normalizeCompactEntry (v : Option KevRawEntry) : Option KevCompactEntry :=
  match v with
  | none => none
  | some r =>
    match toStringOrUndefined (r.cveId <|> r.cveID) with
    | none => none
    | some id =>
      some { cveId := id,
             dateAdded := toStringOrUndefined r.dateAdded,
             vendorProject := toStringOrUndefined r.vendorProject,
             product := toStringOrUndefined r.product }

/-- The normalize-and-deduplicate loop shared by
`normalizeFromVulnerabilities` and `normalizeFromCompact` in
`server/lib/kev-index.ts`: keep the first entry per `cveId`. -/
def collectEntries (raw : List (Option KevRawEntry)) : List KevCompactEntry :=
  raw.foldl (fun acc c =>
    match normalizeCompactEntry c with
    | none => acc
    | some e => if acc.any (fun x => x.cveId = e.cveId) then acc else acc ++ [e]) []

/-- A parsed KEV payload: a record with an `items` key (the compact
shape), a record with a `vulnerabilities` key (the upstream shape), or
anything else (on which `buildCompactFromFull` throws). The `Option` on
the arrays covers non-array values, treated as empty. -/
inductive KevPayload where
  | compact (etag lastModified updatedAt : Option String)
      (items : Option (List (Option KevRawEntry)))
  | full (vulnerabilities : Option (List (Option KevRawEntry)))
  | invalid
deriving DecidableEq, Repr

/-- `buildCompactFromFull` from `server/lib/kev-index.ts` lines 93-105:
normalize either payload shape into a compact file, with
`new Date().toISOString()` injected as `nowIso`; any other payload
throws (modelled as `Except.error`). -/
def buildCompactFromFull (p : KevPayload) (nowIso : String) : Except Unit KevCompactFile :=
  match p with
  | .compact etag lastModified updatedAt items =>
    .ok { etag := toStringOrUndefined etag,
          lastModified := toStringOrUndefined lastModified,
          updatedAt := (toStringOrUndefined updatedAt).getD nowIso,
          items := collectEntries (items.getD []) }
  | .full vulnerabilities =>
    .ok { etag := none, lastModified := none, updatedAt := nowIso,
          items := collectEntries (vulnerabilities.getD []) }
  | .invalid => .error ()

/-- `hydrateRuntime` from `server/lib/kev-index.ts` lines 107-121:
clear and refill the set and the metadata map from the compact items,
and install the caching headers. -/
def hydrateRuntime (compact : KevCompactFile) : KevRuntime :=
  { set := compact.items.map KevCompactEntry.cveId,
    meta := compact.items.map (fun i => (i.cveId, ⟨i.dateAdded, i.vendorProject, i.product⟩)),
    etag := compact.etag,
    lastModified := compact.lastModified,
    updatedAt := some compact.updatedAt }

/-- `isInKev` from `server/plugins/kev-loader.ts`: membership in the
runtime KEV set. -/
def isInKev (st : KevRuntime) (cveId : String) : Bool :=
  st.set.contains cveId

/-- The relevant part of a fetch `Response` for the KEV refresh:
status, caching headers, and the parsed JSON body (`none` when
`response.json()` throws on malformed JSON). -/
structure KevResponse where
  status : ℕ
  etag : Option String
  lastModified : Option String
  body : Option KevPayload
deriving DecidableEq, Repr

/-- `Response.ok`: the status is in the 2xx range. -/
def respOk (r : KevResponse) : Bool :=
  decide (200 ≤ r.status) && decide (r.status ≤ 299)

/-- `responseHeadersToCompact` from `server/plugins/kev-loader.ts`
lines 131-139. -/
def responseHeadersToCompact (base : KevCompactFile) (r : KevResponse) : KevCompactFile :=
  { base with etag := r.etag, lastModified := r.lastModified }

/-- `KevRefreshResult` from `server/plugins/kev-loader.ts`. -/
structure KevRefreshResult where
  changed : Bool
  count : ℕ
  updatedAt : String
deriving DecidableEq, Repr

/-- `refreshKevFromRemote` from `server/plugins/kev-loader.ts` lines
186-227, with the fetch outcome, the disk-write success and the clock
injected: a thrown fetch (network error or abort on timeout) is
`outcome = none`; a 304 is a no-op; a non-OK status throws; a malformed
body throws in `response.json()` or in `buildCompactFromFull`; a failed
`saveCompactToDisk` (`diskOk = false`) throws before `hydrateRuntime`
runs. Every thrown error is caught and reported as `changed = false`
with the runtime untouched. -/
def refreshKevFromRemote (st : KevRuntime) (outcome : Option KevResponse) (diskOk : Bool)
    (nowIso : String) : KevRuntime × KevRefreshResult :=
  match outcome with
  | none =>
    (st, { changed := false, count := st.set.length, updatedAt := st.updatedAt.getD nowIso })
  | some r =>
    if r.status = 304 then
      (st, { changed := false, count := st.set.length, updatedAt := st.updatedAt.getD nowIso })
    else if respOk r = false then
      (st, { changed := false, count := st.set.length, updatedAt := st.updatedAt.getD nowIso })
    else
      match r.body with
      | none =>
        (st, { changed := false, count := st.set.length, updatedAt := st.updatedAt.getD nowIso })
      | some payload =>
        match buildCompactFromFull payload nowIso with
        | .error _ =>
          (st, { changed := false, count := st.set.length, updatedAt := st.updatedAt.getD nowIso })
        | .ok compact =>
          let next : KevCompactFile := { responseHeadersToCompact compact r with updatedAt := nowIso }
          if diskOk = true then
            (hydrateRuntime next, { changed := true, count := next.items.length, updatedAt := nowIso })
          else
            (st, { changed := false, count := st.set.length, updatedAt := st.updatedAt.getD nowIso })

/-- The failure modes named by the claim: network error or timeout
(the fetch throws), a non-OK and non-304 HTTP status, a malformed
payload (JSON parse failure or an unrecognised shape), or a
disk-persistence failure. -/
def kevRefreshFails (outcome : Option KevResponse) (diskOk : Bool) : Prop :=
  outcome = none ∨
  ∃ r, outcome = some r ∧ r.status ≠ 304 ∧
    (respOk r = false ∨ r.body = none ∨ r.body = some KevPayload.invalid ∨ diskOk = false)

/-! ## Definitions: CVE identifier validation and the endpoint gates -/

/-- The ASCII digits matched by the regex class `\d`. -/
def digitChars : List Char :=
  ['0', '1', '2', '3', '4', '5', '6', '7', '8', '9']

/-- Is the character an ASCII digit? -/
def isDigitChar (c : Char) : Bool :=
  decide (c ∈ digitChars)

/-- `isValidCve` from `app/utils/validators.ts` (README lines 115-121):
the regex `^CVE-\d{4}-\d{4,}$` (with the `u` flag, under which `\d` is
the ASCII digits), written as an explicit anchored matcher: the literal
"CVE-", exactly four digits, a dash, and at least four digits running
to the end of the string. No normalization is applied. -/
def isValidCve (s : String) : Bool :=
  decide (s.data.take 4 = ['C', 'V', 'E', '-'])
    && decide (((s.data.drop 4).take 4).length = 4)
    && ((s.data.drop 4).take 4).all isDigitChar
    && decide (((s.data.drop 4).drop 4).take 1 = ['-'])
    && decide (4 ≤ ((s.data.drop 4).drop 5).length)
    && ((s.data.drop 4).drop 5).all isDigitChar

/-- The identifier gate of `server/api/v1/cve/[cveId].get.ts` lines
18-21: an invalid identifier is rejected with HTTP 400, otherwise the
handler proceeds. -/
def cveRouteReject (cveId : String) : Option ℕ :=
  if isValidCve cveId = true then none else some 400

/-- The identifier gate of `server/api/v1/enrich/cve/[cveId].get.ts`
lines 21-24. -/
def enrichRouteReject (cveId : String) : Option ℕ :=
  if isValidCve cveId = true then none else some 400

/-! ## Definitions: concrete inputs used by the claim theorems -/

/-- The CVSS version string "3.1". -/
def v31 : String := "3.1"

/-- Scoring inputs of scenario S1: cvssBase 7.5, RL 0.95, RC 0.96,
exploitProb 0.5, no KEV, no exploit, no EPSS, CVSS v3.1. -/
def s1Inputs : SpecEngine.ScoreInputs :=
  { cvssBase := some (15 / 2),
    cvssVector := none,
    cvssVersion := some v31,
    exploitProb := 1 / 2,
    kev := false,
    hasExploit := false,
    epss := none,
    temporalMultipliers := ⟨some (19 / 20), some (24 / 25)⟩ }

/-- The CPE list of scenario S4. -/
def s4CpeList : List String :=
  ["cpe:/o:microsoft:windows_server:2022", "cpe:/a:php:php:8.2"]

/-- The needle of the first category rule. -/
def phpNeedle : String := "php"

/-- An uppercase CPE string containing PHP. -/
def phpUpperCpe : String := "CPE:/A:PHP:PHP:8.2"

/-- Projection of an explanation entry to its `(title, source)` pair. -/
def entryTag (en : ExplanationEntry) : String × String :=
  (en.title, en.source)

/-- The exploit publication timestamp used by scenario S7. -/
def s7Date : String := "2024-05-01T12:34:56Z"

/-- The EPSS fetch timestamp used by scenario S7. -/
def s7Fetched : String := "2024-01-01T00:00:00Z"

/-- A concrete cache key. -/
def wCacheKey : String := "enrich:CVE-2024-12345"

/-- A concrete one-entry cache store whose entry expires at time 5. -/
def wCacheStore : CacheStore ℕ := [(wCacheKey, ⟨7, 5⟩)]

/-- A concrete KEV-listed CVE identifier. -/
def wKevCve : String := "CVE-2021-44228"

/-- A concrete refresh timestamp. -/
def wNowIso : String := "2026-01-01T00:00:00Z"

/-- A concrete KEV runtime with one listed CVE. -/
def wKevRuntime : KevRuntime :=
  { set := [wKevCve],
    meta := [(wKevCve, ⟨none, none, none⟩)],
    etag := none,
    lastModified := none,
    updatedAt := none }

/-- A lowercase CVE identifier. -/
def lowerCveExample : String := "cve-2024-12345"

/-- Explanation parameters of scenario S7: KEV set, one exploit dated
2024-05-01, an EPSS signal, and a CVSS base of 7.2. -/
def s7Params : SpecEngine.ExplanationParams :=
  { kev := true,
    exploits := [{ url := none, publishedDate := some s7Date }],
    epss := some { score := 21 / 50, percentile := 9 / 10, fetchedAt := s7Fetched },
    exploitProb := 37 / 100,
    modelCategory := "linux",
    modelParams := { mu := 16 / 5, lambda := 4 / 5, kappa := 11 / 10 },
    tWeeks := 11 / 2,
    cvssBase := some (36 / 5),
    secscore := 42 / 5,
    temporalKernel := 63 / 10,
    temporalExploitMaturity := 19 / 20 }

/-! ## Lemmas -/

section RoundingFacts

lemma clamp_nonneg (s : ℚ) : 0 ≤ clamp s 0 10 := by
  unfold clamp
  have h1 : (0 : ℚ) ≤ max s 0 := le_max_right s 0
  have h2 : (0 : ℚ) ≤ 10 := by norm_num
  exact le_min h1 h2

lemma clamp_le_ten (s : ℚ) : clamp s 0 10 ≤ 10 := by
  unfold clamp
  exact min_le_right _ _

lemma clamp_ge_of_ge (s : ℚ) (h : 8 ≤ s) : 8 ≤ clamp s 0 10 := by
  unfold clamp
  have h1 : (8 : ℚ) ≤ max s 0 := le_trans h (le_max_left s 0)
  have h2 : (8 : ℚ) ≤ 10 := by norm_num
  exact le_min h1 h2

lemma jsRound_nonneg (q : ℚ) (h : 0 ≤ q) : 0 ≤ jsRound q := by
  unfold jsRound
  have : (0 : ℚ) ≤ q + 1 / 2 := by linarith
  exact Int.le_floor.mpr (by exact_mod_cast this)

lemma jsRound_le (q : ℚ) (b : ℤ) (h : q ≤ (b : ℚ)) : jsRound q ≤ b := by
  unfold jsRound
  have : q + 1 / 2 < ((b + 1 : ℤ) : ℚ) := by push_cast; linarith
  have hlt : ⌊q + 1 / 2⌋ < b + 1 := Int.floor_lt.mpr this
  omega

lemma jsRound_ge (q : ℚ) (b : ℤ) (h : (b : ℚ) ≤ q) : b ≤ jsRound q := by
  unfold jsRound
  exact Int.le_floor.mpr (by linarith)

end RoundingFacts

lemma final_round_bounds (f : ℚ) :
    0 ≤ ((jsRound (clamp f 0 10 * 10) : ℤ) : ℚ) / 10 ∧
    ((jsRound (clamp f 0 10 * 10) : ℤ) : ℚ) / 10 ≤ 10 ∧
    ∃ n : ℕ, n ≤ 100 ∧ ((jsRound (clamp f 0 10 * 10) : ℤ) : ℚ) / 10 = (n : ℚ) / 10 := by
  have hc0 : 0 ≤ clamp f 0 10 := clamp_nonneg f
  have hc10 : clamp f 0 10 ≤ 10 := clamp_le_ten f
  have hr0 : 0 ≤ jsRound (clamp f 0 10 * 10) :=
    jsRound_nonneg _ (by nlinarith)
  have hr100 : jsRound (clamp f 0 10 * 10) ≤ (100 : ℤ) :=
    jsRound_le _ 100 (by push_cast; nlinarith)
  refine ⟨?_, ?_, ?_⟩
  · have : (0 : ℚ) ≤ ((jsRound (clamp f 0 10 * 10) : ℤ) : ℚ) := by exact_mod_cast hr0
    linarith
  · rw [div_le_iff₀ (by norm_num : (0 : ℚ) < 10)]
    have : ((jsRound (clamp f 0 10 * 10) : ℤ) : ℚ) ≤ 100 := by exact_mod_cast hr100
    linarith
  · refine ⟨(jsRound (clamp f 0 10 * 10)).toNat, by omega, ?_⟩
    congr 1
    exact_mod_cast (Int.toNat_of_nonneg hr0).symm

lemma final_round_ge_eight (f : ℚ) (h : 8 ≤ f) :
    8 ≤ ((jsRound (clamp f 0 10 * 10) : ℤ) : ℚ) / 10 := by
  have hcl : 8 ≤ clamp f 0 10 := clamp_ge_of_ge f h
  have h80 : (80 : ℤ) ≤ jsRound (clamp f 0 10 * 10) :=
    jsRound_ge _ 80 (by push_cast; nlinarith)
  rw [le_div_iff₀ (by norm_num : (0 : ℚ) < 10)]
  have : (80 : ℚ) ≤ ((jsRound (clamp f 0 10 * 10) : ℤ) : ℚ) := by exact_mod_cast h80
  linarith

lemma round1_eval (q : ℚ) (z : ℤ) (hq : ¬q < 0)
    (h1 : (z : ℚ) ≤ q * 10 + 1 / 2) (h2 : q * 10 + 1 / 2 < z + 1) :
    round1 q = (z : ℚ) / 10 := by
  unfold round1
  rw [if_neg hq, Int.floor_eq_iff.mpr ⟨h1, by exact_mod_cast h2⟩]

lemma s1_eMin : SpecEngine.eMinOf s1Inputs = 91 / 100 := by
  unfold SpecEngine.eMinOf
  rw [if_neg (by decide)]
  norm_num [E_MIN_V31]

lemma s1_kernel : SpecEngine.temporalKernelOf s1Inputs = 34 / 5 := by
  unfold SpecEngine.temporalKernelOf
  have hs : s1Inputs.cvssBase.getD 0 * s1Inputs.temporalMultipliers.remediationLevel.getD 1 *
      s1Inputs.temporalMultipliers.reportConfidence.getD 1 = (171 / 25 : ℚ) := by
    norm_num [s1Inputs]
  rw [hs, round1_eval (171 / 25) 68 (by norm_num) (by norm_num) (by norm_num)]
  norm_num

lemma s1_maturity : SpecEngine.exploitMaturityOf s1Inputs = 191 / 200 := by
  unfold SpecEngine.exploitMaturityOf
  rw [s1_eMin]
  norm_num [s1Inputs]

lemma getLast?_append_singleton {A : Type} (xs : List A) (a : A) :
    (xs ++ [a]).getLast? = some a := by
  rw [List.getLast?_append_cons]
  rfl

lemma clamp01_mono {x y : ℝ} (h : x ≤ y) : clamp x 0 1 ≤ clamp y 0 1 :=
  min_le_min (max_le_max h le_rfl) le_rfl

lemma find?_isSome_bind {F A : Type} (f : F → Option A) (fams : List F) :
    ((fams.find? (fun fam => (f fam).isSome)).bind f)
      = fams.foldr (fun fam acc => f fam <|> acc) none := by
  induction fams with
  | nil => rfl
  | cons fam t ih =>
    rw [List.foldr_cons]
    by_cases h : (f fam).isSome
    · rw [List.find?_cons_of_pos t (show (fun x => (f x).isSome) fam = true from h)]
      cases hf : f fam with
      | none => rw [hf] at h; simp at h
      | some a => simp [hf]
    · rw [List.find?_cons_of_neg t (show ¬(fun x => (f x).isSome) fam = true from h)]
      cases hf : f fam with
      | some a => rw [hf] at h; simp at h
      | none => simp [hf, ih]

lemma find?_delete_none {V : Type} (m : CacheStore V) (k : String) :
    (mapDelete m k).find? (fun p => p.1 == k) = none := by
  unfold mapDelete
  rw [List.find?_eq_none]
  intro x hx
  have hmem := List.of_mem_filter hx
  simp only [Bool.not_eq_true'] at hmem
  simp [hmem]

lemma mapGet_delete {V : Type} (m : CacheStore V) (k : String) :
    mapGet (mapDelete m k) k = none := by
  unfold mapGet
  rw [find?_delete_none]
  rfl

lemma mapSet_after_delete {V : Type} (m : CacheStore V) (k : String) (e : CacheEntry V) :
    mapSet (mapDelete m k) k e = mapDelete m k ++ [(k, e)] := by
  unfold mapSet
  rw [find?_delete_none]
  rfl

lemma digit_not_lower (c : Char) (hc : isDigitChar c = true) : c.isLower = false := by
  have hmem := of_decide_eq_true hc
  fin_cases hmem <;> decide

lemma isValidCve_chars (s : String) (h : isValidCve s = true) :
    ∀ c ∈ s.data, c.isLower = false := by
  unfold isValidCve at h
  simp only [Bool.and_eq_true, decide_eq_true_eq, List.all_eq_true] at h
  obtain ⟨⟨⟨⟨⟨h1, h2⟩, h3⟩, h4⟩, h5⟩, h6⟩ := h
  intro c hmem
  have hsplit : s.data.take 4 ++ s.data.drop 4 = s.data := List.take_append_drop 4 s.data
  rw [← hsplit] at hmem
  rcases List.mem_append.mp hmem with hA | hB
  · rw [h1] at hA
    fin_cases hA <;> decide
  · have hrsplit : (s.data.drop 4).take 4 ++ (s.data.drop 4).drop 4 = s.data.drop 4 :=
      List.take_append_drop 4 (s.data.drop 4)
    rw [← hrsplit] at hB
    rcases List.mem_append.mp hB with hB1 | hB2
    · exact digit_not_lower c (h3 c hB1)
    · have hdsplit : ((s.data.drop 4).drop 4).take 1 ++ ((s.data.drop 4).drop 4).drop 1
          = (s.data.drop 4).drop 4 := List.take_append_drop 1 ((s.data.drop 4).drop 4)
      rw [← hdsplit] at hB2
      rcases List.mem_append.mp hB2 with hC1 | hC2
      · rw [h4] at hC1
        fin_cases hC1
        decide
      · have hdd : ((s.data.drop 4).drop 4).drop 1 = (s.data.drop 4).drop 5 := by
          rw [List.drop_drop]
        rw [hdd] at hC2
        exact digit_not_lower c (h6 c hC2)

/-! ## Claim theorems -/

/-- C1: on scenario S1 the engine computes the temporal kernel
`K = round₁(7.5·0.95·0.96) = 6.8`, uses `eMin = 0.91`, the exploit
maturity `E_S = 0.955`, combines them as `K · E_S` (clamped and rounded
to one decimal) and returns `secscore = 6.5`. -/
theorem computeSecScore_s1 :
    (SpecEngine.computeSecScore s1Inputs).temporalKernel
        = round1 ((15 / 2 : ℚ) * (19 / 20) * (24 / 25)) ∧
    (SpecEngine.computeSecScore s1Inputs).temporalKernel = 34 / 5 ∧
    (SpecEngine.computeSecScore s1Inputs).eMin = 91 / 100 ∧
    (SpecEngine.computeSecScore s1Inputs).exploitMaturity = 191 / 200 ∧
    (SpecEngine.computeSecScore s1Inputs).secscore
        = round1 (clamp ((SpecEngine.computeSecScore s1Inputs).temporalKernel *
            (SpecEngine.computeSecScore s1Inputs).exploitMaturity) 0 10) ∧
    (SpecEngine.computeSecScore s1Inputs).secscore = 13 / 2 := by
  have hK : (SpecEngine.computeSecScore s1Inputs).temporalKernel = 34 / 5 := s1_kernel
  have hE : (SpecEngine.computeSecScore s1Inputs).eMin = 91 / 100 := s1_eMin
  have hM : (SpecEngine.computeSecScore s1Inputs).exploitMaturity = 191 / 200 := s1_maturity
  have hb : SpecEngine.blendedOf s1Inputs = 3247 / 500 := by
    unfold SpecEngine.blendedOf
    rw [s1_kernel, s1_maturity]
    norm_num [s1Inputs]
  have hclamp : clamp ((3247 : ℚ) / 500) 0 10 = 3247 / 500 := by
    unfold clamp
    rw [max_eq_left (by norm_num), min_eq_left (by norm_num)]
  have hS : (SpecEngine.computeSecScore s1Inputs).secscore = 13 / 2 := by
    show round1 (clamp (if s1Inputs.kev = true ∧ SpecEngine.blendedOf s1Inputs < KEV_MIN_FLOOR
      then KEV_MIN_FLOOR else SpecEngine.blendedOf s1Inputs) 0 10) = 13 / 2
    rw [if_neg (by simp [s1Inputs]), hb, hclamp,
      round1_eval (3247 / 500) 65 (by norm_num) (by norm_num) (by norm_num)]
    norm_num
  refine ⟨?_, hK, hE, hM, ?_, hS⟩
  · rw [hK, round1_eval ((15 / 2 : ℚ) * (19 / 20) * (24 / 25)) 68 (by norm_num)
      (by norm_num) (by norm_num)]
    norm_num
  · rw [hS, hK, hM]
    rw [show ((34 : ℚ) / 5) * (191 / 200) = 3247 / 500 by norm_num, hclamp,
      round1_eval (3247 / 500) 65 (by norm_num) (by norm_num) (by norm_num)]
    norm_num

/-- C2: the `php` rule is evaluated first, against every lowercased CPE
string, so any list one of whose members contains "php" (in any case)
is categorised as `php` regardless of what the other rules would match;
in particular scenario S4 returns "php". -/
theorem inferCategory_php_first :
    (∀ (l : List String) (s : String), s ∈ l →
      charsContain phpNeedle.data (lowerStr s).data = true →
      SpecEngine.inferCategory l = "php") ∧
    SpecEngine.inferCategory s4CpeList = "php" := by
  constructor
  · intro l s hmem hsub
    have hany : cpeHasAny l SpecEngine.phpPats = true := by
      unfold cpeHasAny SpecEngine.phpPats
      rw [List.any_eq_true]
      refine ⟨s, hmem, ?_⟩
      rw [List.any_eq_true]
      exact ⟨phpNeedle, by decide, hsub⟩
    unfold SpecEngine.inferCategory
    rw [if_pos hany]
  · decide

/-- Witness for C2 at a concrete list whose member contains "PHP" in
upper case. -/
theorem inferCategory_php_first_witness :
    SpecEngine.inferCategory [phpUpperCpe] = "php" :=
  inferCategory_php_first.1 [phpUpperCpe] phpUpperCpe (by decide) (by decide)

/-- C3: whenever the KEV flag is set, `computeSecScore` returns at
least `KEV_MIN_FLOOR` (8.0). -/
theorem computeSecScore_kev_floor (args : SrcEngine.Args) (hkev : args.kev = true) :
    KEV_MIN_FLOOR ≤ SrcEngine.computeSecScore args := by
  unfold SrcEngine.computeSecScore
  show KEV_MIN_FLOOR ≤ _ / 10
  have hfl : 8 ≤ (if args.kev = true ∧ SrcEngine.score args < KEV_MIN_FLOOR
      then KEV_MIN_FLOOR else SrcEngine.score args) := by
    by_cases h : SrcEngine.score args < KEV_MIN_FLOOR
    · rw [if_pos ⟨hkev, h⟩]; norm_num [KEV_MIN_FLOOR]
    · rw [if_neg (by tauto)]
      have := not_lt.mp h
      unfold KEV_MIN_FLOOR at this
      linarith
  unfold KEV_MIN_FLOOR
  exact final_round_ge_eight _ hfl

/-- Witness for C3 at a concrete KEV-flagged input. -/
theorem computeSecScore_kev_floor_witness :
    KEV_MIN_FLOOR ≤ SrcEngine.computeSecScore
      { cvssBase := some 1, exploitProb := 0, kev := true,
        hasExploit := false, epss := none } :=
  computeSecScore_kev_floor
    { cvssBase := some 1, exploitProb := 0, kev := true,
      hasExploit := false, epss := none } rfl

/-- C4: for every input record, `computeSecScore` returns a value in
[0, 10] that is an integer number of tenths (at most one decimal
digit). -/
theorem computeSecScore_range_one_decimal (args : SrcEngine.Args) :
    0 ≤ SrcEngine.computeSecScore args ∧
    SrcEngine.computeSecScore args ≤ 10 ∧
    ∃ n : ℕ, n ≤ 100 ∧ SrcEngine.computeSecScore args = (n : ℚ) / 10 := by
  unfold SrcEngine.computeSecScore
  exact final_round_bounds _

/-- C5: `buildExplanation` always emits the Temporal-model entry
(source "secscore") first and the SecScore entry (source "secscore")
last; and when the KEV flag, a first exploit, an EPSS signal, and a
CVSS base score are all present, it emits exactly six entries in the
order Temporal model, CISA KEV, Exploit PoC, EPSS, CVSS Base,
SecScore. -/
theorem buildExplanation_order :
    (∀ p : SpecEngine.ExplanationParams,
      ((SpecEngine.buildExplanation p).map entryTag).head?
          = some ("Temporal model", "secscore") ∧
      ((SpecEngine.buildExplanation p).map entryTag).getLast?
          = some ("SecScore", "secscore")) ∧
    (∀ (p : SpecEngine.ExplanationParams) (ex : ExploitEvidence) (e : EpssSignal) (b : ℚ),
      p.kev = true → p.exploits.head? = some ex → p.epss = some e → p.cvssBase = some b →
      (SpecEngine.buildExplanation p).map entryTag =
        [("Temporal model", "secscore"),
         ("CISA KEV", "cisa-kev"),
         ("Exploit PoC", "exploitdb"),
         ("EPSS", "epss"),
         ("CVSS Base", "cvss"),
         ("SecScore", "secscore")]) := by
  constructor
  · intro p
    constructor
    · rfl
    · unfold SpecEngine.buildExplanation
      simp only [List.map_append, List.map_cons, List.map_nil]
      rw [getLast?_append_singleton]
      rfl
  · intro p ex e b hkev hex hepss hbase
    unfold SpecEngine.buildExplanation
    rw [hkev, hex, hepss, hbase]
    rfl

/-- Witness for C5 on the scenario-S7 parameters. -/
theorem buildExplanation_order_witness :
    (SpecEngine.buildExplanation s7Params).map entryTag =
      [("Temporal model", "secscore"),
       ("CISA KEV", "cisa-kev"),
       ("Exploit PoC", "exploitdb"),
       ("EPSS", "epss"),
       ("CVSS Base", "cvss"),
       ("SecScore", "secscore")] :=
  buildExplanation_order.2 s7Params
    { url := none, publishedDate := some s7Date }
    { score := 21 / 50, percentile := 9 / 10, fetchedAt := s7Fetched }
    (36 / 5) rfl rfl rfl rfl

/-- C6: for fixed `mu` and positive `lambda`, `kappa`, the asymmetric
Laplace CDF is monotone non-decreasing in its first argument, including
across the branch boundary at `t = mu`. -/
theorem asymmetricLaplaceCdf_mono (t1 t2 mu lambda kappa : ℝ)
    (hl : 0 < lambda) (hk : 0 < kappa) (ht : t1 ≤ t2) :
    asymmetricLaplaceCdf t1 mu lambda kappa ≤ asymmetricLaplaceCdf t2 mu lambda kappa := by
  have h1k : (0 : ℝ) < 1 + kappa ^ 2 := by positivity
  have hA0 : 0 ≤ kappa ^ 2 / (1 + kappa ^ 2) := by positivity
  have hA1 : kappa ^ 2 / (1 + kappa ^ 2) ≤ 1 := by
    rw [div_le_one h1k]; nlinarith
  have hAc : kappa ^ 2 / (1 + kappa ^ 2) = 1 - 1 / (1 + kappa ^ 2) := by
    field_simp
  have hclampA : clamp (kappa ^ 2 / (1 + kappa ^ 2)) 0 1 = kappa ^ 2 / (1 + kappa ^ 2) := by
    unfold clamp
    rw [max_eq_left hA0, min_eq_left hA1]
  unfold asymmetricLaplaceCdf
  by_cases h2 : t2 ≤ mu
  · have h1 : t1 ≤ mu := le_trans ht h2
    rw [if_pos h1, if_pos h2]
    apply clamp01_mono
    have hexp : Real.exp (lambda / kappa * (t1 - mu)) ≤ Real.exp (lambda / kappa * (t2 - mu)) :=
      Real.exp_le_exp.mpr (mul_le_mul_of_nonneg_left (sub_le_sub_right ht mu)
        (le_of_lt (div_pos hl hk)))
    exact mul_le_mul_of_nonneg_left hexp hA0
  · have hmu2 : mu < t2 := lt_of_not_le h2
    by_cases h1 : t1 ≤ mu
    · rw [if_pos h1, if_neg h2]
      have hv1 : clamp (kappa ^ 2 / (1 + kappa ^ 2) * Real.exp (lambda / kappa * (t1 - mu))) 0 1
          ≤ kappa ^ 2 / (1 + kappa ^ 2) := by
        have hexp : Real.exp (lambda / kappa * (t1 - mu)) ≤ 1 := by
          rw [Real.exp_le_one_iff]
          have hdk : 0 ≤ lambda / kappa := le_of_lt (div_pos hl hk)
          have hts : t1 - mu ≤ 0 := by linarith
          exact mul_nonpos_of_nonneg_of_nonpos hdk hts
        calc clamp (kappa ^ 2 / (1 + kappa ^ 2) * Real.exp (lambda / kappa * (t1 - mu))) 0 1
            ≤ clamp (kappa ^ 2 / (1 + kappa ^ 2)) 0 1 :=
              clamp01_mono (mul_le_of_le_one_right hA0 hexp)
          _ = kappa ^ 2 / (1 + kappa ^ 2) := hclampA
      have hv2 : kappa ^ 2 / (1 + kappa ^ 2)
          ≤ clamp (1 - 1 / (1 + kappa ^ 2) * Real.exp (-lambda * kappa * (t2 - mu))) 0 1 := by
        have hexp2 : Real.exp (-lambda * kappa * (t2 - mu)) ≤ 1 := by
          rw [Real.exp_le_one_iff]
          nlinarith [mul_pos hl hk]
        have hc0 : (0 : ℝ) ≤ 1 / (1 + kappa ^ 2) := by positivity
        have hge : kappa ^ 2 / (1 + kappa ^ 2)
            ≤ 1 - 1 / (1 + kappa ^ 2) * Real.exp (-lambda * kappa * (t2 - mu)) := by
          rw [hAc]
          nlinarith [mul_le_of_le_one_right hc0 hexp2]
        calc kappa ^ 2 / (1 + kappa ^ 2)
            = clamp (kappa ^ 2 / (1 + kappa ^ 2)) 0 1 := hclampA.symm
          _ ≤ clamp (1 - 1 / (1 + kappa ^ 2) * Real.exp (-lambda * kappa * (t2 - mu))) 0 1 :=
              clamp01_mono hge
      exact le_trans hv1 hv2
    · rw [if_neg h1, if_neg h2]
      apply clamp01_mono
      have hexp : Real.exp (-lambda * kappa * (t2 - mu)) ≤ Real.exp (-lambda * kappa * (t1 - mu)) :=
        Real.exp_le_exp.mpr (by nlinarith [mul_pos hl hk])
      have hc0 : (0 : ℝ) ≤ 1 / (1 + kappa ^ 2) := by positivity
      nlinarith [mul_le_mul_of_nonneg_left hexp hc0]

/-- Witness for C6 at concrete parameters. -/
theorem asymmetricLaplaceCdf_mono_witness :
    asymmetricLaplaceCdf 0 0 1 1 ≤ asymmetricLaplaceCdf 1 0 1 1 :=
  asymmetricLaplaceCdf_mono 0 1 0 1 1 one_pos one_pos zero_le_one

/-- C7: `selectCvssMetric` takes the first metric of the first present
family in the priority order v4.0, v3.1, v3.0, v3, v2, and reads
`baseScore` (or `score`) and `vectorString` from the selected metric's
data record. -/
theorem selectCvssMetric_priority (cve : NvdCve) :
    (selectCvssMetric cve).metric = specSelectedMetric cve ∧
    (selectCvssMetric cve).baseScore
        = (specSelectedData cve).bind (fun d => d.baseScore <|> d.score) ∧
    (selectCvssMetric cve).vector = (specSelectedData cve).bind NvdCvssData.vectorString := by
  have hmetric : (selectCvssMetric cve).metric = specSelectedMetric cve := by
    show ((cve.metrics.bind NvdMetrics.cvssMetricV40).bind List.head?
        <|> (cve.metrics.bind NvdMetrics.cvssMetricV31).bind List.head?
        <|> (cve.metrics.bind NvdMetrics.cvssMetricV30).bind List.head?
        <|> (cve.metrics.bind NvdMetrics.cvssMetricV3).bind List.head?
        <|> (cve.metrics.bind NvdMetrics.cvssMetricV2).bind List.head?)
      = specSelectedMetric cve
    unfold specSelectedMetric familiesInPriorityOrder
    rw [find?_isSome_bind]
    simp only [List.foldr, familyFirstMetric]
    rw [Option.orElse_none]
  have hdata : ((selectCvssMetric cve).metric.bind NvdCvssMetric.cvssData
      <|> (selectCvssMetric cve).metric.bind NvdCvssMetric.baseMetrics)
      = specSelectedData cve := by
    unfold specSelectedData
    rw [hmetric]
  refine ⟨hmetric, ?_, ?_⟩
  · show (((selectCvssMetric cve).metric.bind NvdCvssMetric.cvssData
        <|> (selectCvssMetric cve).metric.bind NvdCvssMetric.baseMetrics).bind
          NvdCvssData.baseScore
      <|> ((selectCvssMetric cve).metric.bind NvdCvssMetric.cvssData
        <|> (selectCvssMetric cve).metric.bind NvdCvssMetric.baseMetrics).bind
          NvdCvssData.score)
      = (specSelectedData cve).bind (fun d => d.baseScore <|> d.score)
    rw [hdata]
    cases specSelectedData cve with
    | none => rfl
    | some d => rfl
  · show ((selectCvssMetric cve).metric.bind NvdCvssMetric.cvssData
        <|> (selectCvssMetric cve).metric.bind NvdCvssMetric.baseMetrics).bind
          NvdCvssData.vectorString
      = (specSelectedData cve).bind NvdCvssData.vectorString
    rw [hdata]

/-- C8: `lruGet` never returns an expired entry. For a key stored with
`expiresAt ≤ now` the call is a miss, the entry is removed, and a
subsequent lookup of the key misses; for a non-expired entry the call
returns the stored value and moves the entry to the most-recently-used
end of the store. -/
theorem lruGet_expiry {V : Type} (m : CacheStore V) (k : String) (now : ℤ) (e : CacheEntry V)
    (hstored : mapGet m k = some e) :
    (e.expiresAt ≤ now →
      (lruGet now m k).1 = none ∧
      (lruGet now m k).2 = mapDelete m k ∧
      mapGet (lruGet now m k).2 k = none) ∧
    (now < e.expiresAt →
      (lruGet now m k).1 = some e.value ∧
      (lruGet now m k).2 = mapDelete m k ++ [(k, e)]) := by
  constructor
  · intro hexp
    have hres : lruGet now m k = (none, mapDelete m k) := by
      unfold lruGet
      rw [hstored]
      exact if_pos hexp
    rw [hres]
    exact ⟨rfl, rfl, mapGet_delete m k⟩
  · intro hfresh
    have hres : lruGet now m k = (some e.value, mapSet (mapDelete m k) k e) := by
      unfold lruGet
      rw [hstored]
      exact if_neg (not_le.mpr hfresh)
    rw [hres, mapSet_after_delete]
    exact ⟨rfl, rfl⟩

/-- Witness for C8 at a concrete expired entry. -/
theorem lruGet_expiry_witness :
    (lruGet 10 wCacheStore wCacheKey).1 = none ∧
    mapGet (lruGet 10 wCacheStore wCacheKey).2 wCacheKey = none := by
  have h := (lruGet_expiry wCacheStore wCacheKey 10 ⟨7, 5⟩ (by decide)).1 (by decide)
  exact ⟨h.1, h.2.2⟩

/-- C9: every failing KEV refresh (fetch error or timeout, non-OK and
non-304 status, malformed payload, or disk-persistence failure) leaves
the in-memory KEV set and metadata map exactly as they were, reports
`changed = false`, and membership queries answer identically before and
after. -/
theorem refreshKev_failure_preserves_state (st : KevRuntime) (outcome : Option KevResponse)
    (diskOk : Bool) (nowIso : String) (hfail : kevRefreshFails outcome diskOk) :
    (refreshKevFromRemote st outcome diskOk nowIso).1 = st ∧
    (refreshKevFromRemote st outcome diskOk nowIso).2.changed = false ∧
    ∀ cveId, isInKev (refreshKevFromRemote st outcome diskOk nowIso).1 cveId
      = isInKev st cveId := by
  rcases hfail with h | ⟨r, hr, h304, hmode⟩
  · subst h
    exact ⟨rfl, rfl, fun _ => rfl⟩
  · subst hr
    have heq : refreshKevFromRemote st (some r) diskOk nowIso
        = (if r.status = 304 then (st, ⟨false, st.set.length, st.updatedAt.getD nowIso⟩)
          else if respOk r = false then (st, ⟨false, st.set.length, st.updatedAt.getD nowIso⟩)
          else match r.body with
            | none => (st, ⟨false, st.set.length, st.updatedAt.getD nowIso⟩)
            | some payload =>
              match buildCompactFromFull payload nowIso with
              | .error _ => (st, ⟨false, st.set.length, st.updatedAt.getD nowIso⟩)
              | .ok compact =>
                let next : KevCompactFile :=
                  { responseHeadersToCompact compact r with updatedAt := nowIso }
                if diskOk = true then
                  (hydrateRuntime next, ⟨true, next.items.length, nowIso⟩)
                else (st, ⟨false, st.set.length, st.updatedAt.getD nowIso⟩)) := rfl
    rw [heq, if_neg h304]
    rcases hmode with hok | hbody | hinv | hdisk
    · rw [if_pos hok]
      exact ⟨rfl, rfl, fun _ => rfl⟩
    · by_cases hok : respOk r = false
      · rw [if_pos hok]
        exact ⟨rfl, rfl, fun _ => rfl⟩
      · rw [if_neg hok, hbody]
        exact ⟨rfl, rfl, fun _ => rfl⟩
    · by_cases hok : respOk r = false
      · rw [if_pos hok]
        exact ⟨rfl, rfl, fun _ => rfl⟩
      · rw [if_neg hok, hinv]
        exact ⟨rfl, rfl, fun _ => rfl⟩
    · by_cases hok : respOk r = false
      · rw [if_pos hok]
        exact ⟨rfl, rfl, fun _ => rfl⟩
      · rw [if_neg hok]
        rcases hb : r.body with _ | payload
        · exact ⟨rfl, rfl, fun _ => rfl⟩
        · dsimp only
          rcases hbc : buildCompactFromFull payload nowIso with u | compact
          · exact ⟨rfl, rfl, fun _ => rfl⟩
          · subst hdisk
            exact ⟨rfl, rfl, fun _ => rfl⟩

/-- Witness for C9 at a concrete failed fetch. -/
theorem refreshKev_failure_witness :
    (refreshKevFromRemote wKevRuntime none true wNowIso).1 = wKevRuntime ∧
    (refreshKevFromRemote wKevRuntime none true wNowIso).2.changed = false := by
  have h := refreshKev_failure_preserves_state wKevRuntime none true wNowIso (Or.inl rfl)
  exact ⟨h.1, h.2.1⟩

/-- C10: the identifier validation is case sensitive and performs no
normalization: any string containing a lowercase letter fails
`isValidCve`, and both GET endpoints reject it with HTTP 400 rather
than uppercasing it. -/
theorem isValidCve_case_sensitive (s : String) (hlow : ∃ c ∈ s.data, c.isLower = true) :
    isValidCve s = false ∧ cveRouteReject s = some 400 ∧ enrichRouteReject s = some 400 := by
  obtain ⟨c, hmem, hlower⟩ := hlow
  have hval : isValidCve s = false := by
    cases hv : isValidCve s with
    | false => rfl
    | true =>
      exact absurd hlower (by rw [isValidCve_chars s hv c hmem]; exact Bool.false_ne_true)
  refine ⟨hval, ?_, ?_⟩
  · unfold cveRouteReject
    rw [hval]
    rfl
  · unfold enrichRouteReject
    rw [hval]
    rfl

/-- Witness for C10 at the lowercase identifier "cve-2024-12345". -/
theorem isValidCve_case_sensitive_witness :
    isValidCve lowerCveExample = false ∧ cveRouteReject lowerCveExample = some 400 ∧
    enrichRouteReject lowerCveExample = some 400 :=
  isValidCve_case_sensitive lowerCveExample ⟨'c', by decide, by decide⟩
